import Mathlib

/-!
Shallow embedding of the AI model-fallback and retry orchestration core of the
MagicPixel backend.

Embedded source files:
* `src/config/gemini.js` — the model registry (`GEMINI_MODELS`,
  `getGeminiModel`, `switchToNextModel`, `resetModelSelection`).
* the AI service module concatenated into `src/services/cloudinaryService.js`
  (after the separator) — the orchestrator (`analyzeImage`), the response
  interpreter (`parseJsonResponse`), the rule-based fallback classifier
  (`extractIntentFromResponse`, `fallbackProcessing`) and the caller-facing
  operations (`processImageWithPrompt`, `getEnhancementSuggestions`,
  `generateAltText`, `detectObjects`, `generateCreativeIdeas`).

Modelling conventions:
* JavaScript `Date.now()` timestamps are natural-number milliseconds, supplied
  explicitly to each operation that reads the clock.
* The external AI provider (`model.generateContent` together with the
  image-buffer preprocessing inside the orchestrator's `try` block) is an
  abstract function from the prompt, the attempt index and the selected model
  name to `Except errMessage responseText`.  The image payload is absorbed
  into this abstract provider, since the core only forwards it.
* A thrown JavaScript error is `Except.error` carrying the error message;
  `await sleep(d)` is recorded in an event list rather than executed.
* `currentModelIndex` is a natural number: every write in the source is
  either `0` or an increment of the previous value, so no negative value is
  representable and "never negative" is inherited by the embedding.
-/

/-! ### String helpers (JavaScript `String.prototype.includes`, digits) -/

/-- Boolean list-prefix test used to implement substring containment. -/
def charListHasPre : List Char → List Char → Bool
  | [], _ => true
  | _ :: _, [] => false
  | a :: as, b :: bs => a == b && charListHasPre as bs

/-- Boolean substring (infix) test on character lists. -/
def charListHasSub (needle : List Char) : List Char → Bool
  | [] => charListHasPre needle []
  | c :: cs => charListHasPre needle (c :: cs) || charListHasSub needle cs

/-- JavaScript `hay.includes(needle)`. -/
def strIncludes (hay needle : String) : Bool :=
  charListHasSub needle.toList hay.toList

/-- JavaScript `s.toLowerCase()` (ASCII model; every keyword the
classifier tests is ASCII).  Implemented character-wise so that it reduces
inside the kernel. -/
def jsToLowerCase (s : String) : String :=
  String.mk (s.toList.map Char.toLower)

/-! ### Model registry — `src/config/gemini.js` -/

/-- The ordered candidate model list `GEMINI_MODELS`. -/
def GEMINI_MODELS : List String :=
  [ "gemini-2.0-flash",
    "gemini-2.0-flash-lite",
    "gemini-2.0-flash-thinking-exp-01-21",
    "gemini-2.0-pro-exp-02-05",
    "gemini-1.5-pro",
    "gemini-1.5-flash-8b",
    "gemini-exp-1206" ]

/-- `RESET_INTERVAL = 60000` ms. -/
def RESET_INTERVAL : Nat := 60000

/-- The module-level mutable selection state of `gemini.js`:
`currentModelIndex` and `lastResetTime`. -/
structure RegState where
  currentModelIndex : Nat
  lastResetTime : Nat
deriving Repr, DecidableEq

/-- `getGeminiModel(modelName = null)`: applies the auto-reset rule, then
returns the selected model name together with the updated state.  The
`genAI.getGenerativeModel` wrapper is external and carries only the name. -/
def getGeminiModel (now : Nat) (modelName : Option String) (s : RegState) :
    String × RegState :=
  let s' : RegState :=
    if now - s.lastResetTime > RESET_INTERVAL then ⟨0, now⟩ else s
  let model : String :=
    modelName.getD (GEMINI_MODELS.getD s'.currentModelIndex (GEMINI_MODELS.getD 0 ""))
  (model, s')

/-- `getGeminiVisionModel()` is `getGeminiModel()` with no override. -/
def getGeminiVisionModel (now : Nat) (s : RegState) : String × RegState :=
  getGeminiModel now none s

/-- `switchToNextModel()`: advance to the next candidate if one remains;
returns the new state and the boolean result. -/
def switchToNextModel (s : RegState) : RegState × Bool :=
  if s.currentModelIndex < GEMINI_MODELS.length - 1 then
    (⟨s.currentModelIndex + 1, s.lastResetTime⟩, true)
  else
    (s, false)

/-- `resetModelSelection()`: back to the primary model, reset the timer. -/
def resetModelSelection (now : Nat) (_s : RegState) : RegState :=
  ⟨0, now⟩

/-- `getCurrentModelName()`. -/
def getCurrentModelName (s : RegState) : String :=
  GEMINI_MODELS.getD s.currentModelIndex (GEMINI_MODELS.getD 0 "")

/-- One registry operation, for reasoning about arbitrary call sequences. -/
inductive RegOp where
  | getModel (now : Nat) (modelName : Option String)
  | switchNext
  | reset (now : Nat)
deriving Repr, DecidableEq

/-- State effect of a single registry operation. -/
def applyRegOp : RegOp → RegState → RegState
  | .getModel now name, s => (getGeminiModel now name s).2
  | .switchNext, s => (switchToNextModel s).1
  | .reset now, s => resetModelSelection now s

/-- Run a finite sequence of registry operations. -/
def runRegOps (ops : List RegOp) (s : RegState) : RegState :=
  ops.foldl (fun s op => applyRegOp op s) s

/-! ### Orchestrator — `analyzeImage` in the AI service module -/

/-- `MAX_RETRIES = 7`. -/
def MAX_RETRIES : Nat := 7

/-- `RETRY_DELAY_MS = 1500`. -/
def RETRY_DELAY_MS : Nat := 1500

/-- Quota / rate-limit error signature test from the `catch` block. -/
def isQuotaError (msg : String) : Bool :=
  strIncludes msg "429" || strIncludes msg "quota" || strIncludes msg "Too Many Requests"

/-- Model-not-found error signature test from the `catch` block. -/
def isNotFoundError (msg : String) : Bool :=
  strIncludes msg "404" || strIncludes msg "not found"

/-- Observable effect of one execution of the `catch` block of
`analyzeImage`: the registry state afterwards, the sleeps performed (in
order, in ms) and the number of `switchToNextModel` calls made. -/
structure StepOut where
  state : RegState
  sleeps : List Nat
  advs : Nat
deriving Repr, DecidableEq

/-- Tail of the `catch` block: the generic linear-backoff sleep, taken when
neither classified branch hit `continue`. -/
def genericTail (attempt : Nat) (s : RegState) (advs : Nat) : StepOut :=
  ⟨s, if attempt < MAX_RETRIES - 1 then [RETRY_DELAY_MS * (attempt + 1)] else [], advs⟩

/-- The not-found check of the `catch` block, reached when the quota branch
did not hit `continue`. -/
def afterQuota (msg : String) (attempt : Nat) (s : RegState) (advs : Nat) : StepOut :=
  if isNotFoundError msg then
    let (s1, switched) := switchToNextModel s
    if switched then ⟨s1, [], advs + 1⟩ else genericTail attempt s1 (advs + 1)
  else genericTail attempt s advs

/-- The whole `catch` block of `analyzeImage` for one failed attempt. -/
def handleError (msg : String) (attempt : Nat) (s : RegState) : StepOut :=
  if isQuotaError msg then
    let (s1, switched) := switchToNextModel s
    if switched then ⟨s1, [RETRY_DELAY_MS], 1⟩ else afterQuota msg attempt s1 1
  else afterQuota msg attempt s 0

/-- Abstract AI provider: prompt, attempt index and selected model name to
either an error message (a thrown error) or a response text. -/
def Provider : Type := String → Nat → String → Except String String

/-- Result of a full `analyzeImage` run: the returned text or thrown error,
the final registry state, the transcript of underlying provider calls (model
used and outcome, one entry per call, in order), the number of
`switchToNextModel` calls, and the sleeps performed. -/
structure RunResult where
  outcome : Except String String
  finalState : RegState
  transcript : List (String × Except String String)
  advs : Nat
  sleeps : List Nat
deriving Repr

/-- Terminal error message thrown after the retry loop exits. -/
def unavailableMsg (lastErr : Option String) : String :=
  "AI service temporarily unavailable: " ++ lastErr.getD "Unknown error" ++
    ". Please try again later."

/-- The retry loop of `analyzeImage`, by recursion on the remaining attempt
budget.  `times attempt` is the value of `Date.now()` observed by the
`getGeminiVisionModel()` call of that attempt. -/
def analyzeGo (provider : Provider) (times : Nat → Nat) (prompt : String) :
    Nat → Nat → RegState → Option String → RunResult
  | 0, _, s, lastErr => ⟨.error (unavailableMsg lastErr), s, [], 0, []⟩
  | fuel + 1, attempt, s, _ =>
    let ms := getGeminiVisionModel (times attempt) s
    match provider prompt attempt ms.1 with
    | .ok text => ⟨.ok text, ms.2, [(ms.1, .ok text)], 0, []⟩
    | .error msg =>
      let st := handleError msg attempt ms.2
      let rest := analyzeGo provider times prompt fuel (attempt + 1) st.state (some msg)
      ⟨rest.outcome, rest.finalState, (ms.1, .error msg) :: rest.transcript,
        st.advs + rest.advs, st.sleeps ++ rest.sleeps⟩

/-- `analyzeImage(imageBuffer, prompt)`: run the retry loop from attempt 0
with the full `MAX_RETRIES` budget and no recorded error. -/
def analyzeImage (provider : Provider) (times : Nat → Nat) (prompt : String)
    (s : RegState) : RunResult :=
  analyzeGo provider times prompt MAX_RETRIES 0 s none

/-! ### JSON values and a model of the external `JSON.parse` -/

/-- JSON values, as produced by the JavaScript runtime's `JSON.parse`.
Numbers are modelled as integers: no claim of this development touches a
fractional or exponent numeral, and the model parser rejects them. -/
inductive JsonVal where
  | null
  | bool (b : Bool)
  | num (n : Int)
  | str (s : String)
  | arr (elems : List JsonVal)
  | obj (fields : List (String × JsonVal))
deriving Repr

/-- The `\x7b` character (left curly brace). -/
def lbraceChar : Char := Char.ofNat 123

/-- The `\x7d` character (right curly brace). -/
def rbraceChar : Char := Char.ofNat 125

/-- Backslash character. -/
def backslashChar : Char := Char.ofNat 92

/-- Double-quote character. -/
def quoteChar : Char := Char.ofNat 34

/-- JSON insignificant whitespace. -/
def isJsonWs (c : Char) : Bool :=
  c = ' ' || c = '\n' || c = '\t' || c = '\r'

/-- Skip JSON insignificant whitespace. -/
def skipJsonWs (cs : List Char) : List Char :=
  cs.dropWhile isJsonWs

/-- Decode a one-character JSON string escape (`\uXXXX` is not modelled; no
claim exercises it). -/
def escDecode (e : Char) : Option Char :=
  if e = quoteChar then some quoteChar
  else if e = backslashChar then some backslashChar
  else if e = '/' then some '/'
  else if e = 'n' then some '\n'
  else if e = 't' then some '\t'
  else if e = 'r' then some '\r'
  else if e = 'b' then some (Char.ofNat 8)
  else if e = 'f' then some (Char.ofNat 12)
  else none

/-- Parse the body of a JSON string literal (opening quote already consumed);
returns the decoded content and the remaining input. -/
def parseJsonStrBody : List Char → Option (List Char × List Char)
  | [] => none
  | c :: cs =>
    if c = quoteChar then some ([], cs)
    else if c = backslashChar then
      match cs with
      | [] => none
      | e :: cs' =>
        match escDecode e with
        | none => none
        | some d =>
          match parseJsonStrBody cs' with
          | none => none
          | some (content, rest) => some (d :: content, rest)
    else
      match parseJsonStrBody cs with
      | none => none
      | some (content, rest) => some (c :: content, rest)

/-- Decimal digits to a natural number. -/
def digitsToNat (ds : List Char) : Nat :=
  ds.foldl (fun n c => n * 10 + (c.toNat - 48)) 0

mutual

/-- Recursive-descent JSON value parser (fuel-indexed; the fuel passed by
`jsonParse` always suffices because every recursive call consumes input). -/
def parseJsonVal : Nat → List Char → Option (JsonVal × List Char)
  | 0, _ => none
  | fuel + 1, input =>
    match skipJsonWs input with
    | [] => none
    | c :: cs =>
      if c = quoteChar then
        match parseJsonStrBody cs with
        | some (content, rest) => some (.str (String.mk content), rest)
        | none => none
      else if c = lbraceChar then
        match skipJsonWs cs with
        | d :: ds =>
          if d = rbraceChar then some (.obj [], ds)
          else
            match parseJsonMembers fuel (d :: ds) with
            | some (fs, rest) => some (.obj fs, rest)
            | none => none
        | [] => none
      else if c = '[' then
        match skipJsonWs cs with
        | d :: ds =>
          if d = ']' then some (.arr [], ds)
          else
            match parseJsonElems fuel (d :: ds) with
            | some (vs, rest) => some (.arr vs, rest)
            | none => none
        | [] => none
      else if c = 't' then
        if charListHasPre "rue".toList cs then some (.bool true, cs.drop 3) else none
      else if c = 'f' then
        if charListHasPre "alse".toList cs then some (.bool false, cs.drop 4) else none
      else if c = 'n' then
        if charListHasPre "ull".toList cs then some (.null, cs.drop 3) else none
      else if c = '-' then
        match cs with
        | d :: _ =>
          if d.isDigit then
            let digits := cs.takeWhile Char.isDigit
            some (.num (-(digitsToNat digits : Int)), cs.drop digits.length)
          else none
        | [] => none
      else if c.isDigit then
        let digits := (c :: cs).takeWhile Char.isDigit
        some (.num (digitsToNat digits : Int), (c :: cs).drop digits.length)
      else none

/-- Parse the non-empty member list of a JSON object, up to and including the
closing brace. -/
def parseJsonMembers : Nat → List Char → Option (List (String × JsonVal) × List Char)
  | 0, _ => none
  | fuel + 1, input =>
    match skipJsonWs input with
    | [] => none
    | c :: cs =>
      if c = quoteChar then
        match parseJsonStrBody cs with
        | none => none
        | some (key, rest) =>
          match skipJsonWs rest with
          | [] => none
          | d :: ds =>
            if d = ':' then
              match parseJsonVal fuel ds with
              | none => none
              | some (v, rest2) =>
                match skipJsonWs rest2 with
                | [] => none
                | e :: es =>
                  if e = ',' then
                    match parseJsonMembers fuel es with
                    | some (fs, rest3) => some ((String.mk key, v) :: fs, rest3)
                    | none => none
                  else if e = rbraceChar then some ([(String.mk key, v)], es)
                  else none
            else none
      else none

/-- Parse the non-empty element list of a JSON array, up to and including the
closing bracket. -/
def parseJsonElems : Nat → List Char → Option (List JsonVal × List Char)
  | 0, _ => none
  | fuel + 1, input =>
    match parseJsonVal fuel input with
    | none => none
    | some (v, rest) =>
      match skipJsonWs rest with
      | [] => none
      | e :: es =>
        if e = ',' then
          match parseJsonElems fuel es with
          | some (vs, rest2) => some (v :: vs, rest2)
          | none => none
        else if e = ']' then some ([v], es)
        else none

end

/-- Model of the JavaScript builtin `JSON.parse` (an external runtime
collaborator of the embedded code): parses one JSON value and requires the
rest of the input to be whitespace, returning `none` where `JSON.parse`
throws. -/
def jsonParse (s : String) : Option JsonVal :=
  match parseJsonVal (2 * s.length + 2) s.toList with
  | some (v, rest) => if skipJsonWs rest = [] then some v else none
  | none => none

/-- JavaScript property access `v[k]` on a parsed JSON object: `JSON.parse`
keeps the last duplicate key, so the lookup scans from the right. -/
def jsonField (v : JsonVal) (k : String) : Option JsonVal :=
  match v with
  | .obj fs => (fs.reverse.find? (fun f => f.1 == k)).map (·.2)
  | _ => none

/-- JavaScript truthiness of a parsed JSON value. -/
def jsTruthy : JsonVal → Bool
  | .null => false
  | .bool b => b
  | .num n => n != 0
  | .str s => s != ""
  | .arr _ => true
  | .obj _ => true

/-! ### Response interpreter — `parseJsonResponse` -/

/-- Delete every non-overlapping, leftmost-first occurrence of `tok`
followed by an optional newline — the effect of the JavaScript
`.replace(re, '')` with a global regex `tok\n?`.  Fuel-indexed; the fuel
passed by `cleanResponse` always suffices since `tok` is non-empty. -/
def stripTokNl (tok : List Char) : Nat → List Char → List Char
  | 0, cs => cs
  | _ + 1, [] => []
  | fuel + 1, c :: cs =>
    if charListHasPre tok (c :: cs) then
      match (c :: cs).drop tok.length with
      | d :: rest =>
        if d = '\n' then stripTokNl tok fuel rest else stripTokNl tok fuel (d :: rest)
      | [] => []
    else c :: stripTokNl tok fuel cs

/-- Whitespace trimmed by JavaScript `String.prototype.trim` (ASCII part). -/
def isTrimWs (c : Char) : Bool :=
  c = ' ' || c = '\n' || c = '\t' || c = '\r' || c = Char.ofNat 12 || c = Char.ofNat 11

/-- JavaScript `s.trim()`. -/
def jsTrim (cs : List Char) : List Char :=
  ((cs.dropWhile isTrimWs).reverse.dropWhile isTrimWs).reverse

/-- The clean-up pipeline of `parseJsonResponse`: strip fenced-code markers
(first the language-tagged opener, then bare fences), then trim. -/
def cleanResponse (s : String) : String :=
  let l1 := stripTokNl "```json".toList (s.toList.length + 1) s.toList
  let l2 := stripTokNl "```".toList (l1.length + 1) l1
  String.mk (jsTrim l2)

/-- Index of the first occurrence of a character. -/
def idxOfFirstChar (c : Char) : List Char → Option Nat
  | [] => none
  | d :: ds => if d = c then some 0 else (idxOfFirstChar c ds).map (· + 1)

/-- Index of the last occurrence of a character. -/
def idxOfLastChar (c : Char) (cs : List Char) : Option Nat :=
  (idxOfFirstChar c cs.reverse).map (fun i => cs.length - 1 - i)

/-- The greedy regex match `/\x7b[\s\S]*\x7d/` of `parseJsonResponse`: the
span from the first left brace to the last right brace, when the latter
comes after the former. -/
def extractBraceSpan (s : String) : Option String :=
  let cs := s.toList
  match idxOfFirstChar lbraceChar cs, idxOfLastChar rbraceChar cs with
  | some i, some j =>
    if i < j then some (String.mk ((cs.drop i).take (j - i + 1))) else none
  | _, _ => none

/-- `parseJsonResponse(response)`: clean, match the brace span, parse; `null`
(here `none`) when the span is missing or parsing throws. -/
def parseJsonResponse (response : String) : Option JsonVal :=
  (extractBraceSpan (cleanResponse response)).bind jsonParse

/-! ### Fallback intent extractor — `extractIntentFromResponse` -/

/-- A parameter value of an edit instruction (JavaScript object literal
values: numbers, strings, booleans). -/
inductive PVal where
  | num (q : ℚ)
  | str (s : String)
  | bool (b : Bool)
deriving Repr, DecidableEq

/-- The edit-instruction objects built by the classifier.  `usedFallback`
and `fallbackReason` are absent (`false` / `none`) unless
`fallbackProcessing` adds them. -/
structure EditInstruction where
  action : String
  parameters : List (String × PVal)
  explanation : String
  usedFallback : Bool := false
  fallbackReason : Option String := none
deriving Repr, DecidableEq

/-- The regex capture `lowerPrompt.match(/(\d+)/)`: the first maximal run of
decimal digits, as a number. -/
def firstNumber : List Char → Option Nat
  | [] => none
  | c :: cs =>
    if c.isDigit then some (digitsToNat ((c :: cs).takeWhile Char.isDigit))
    else firstNumber cs

/-- Keyword test: grayscale / black and white / b&w. -/
def hasGrayscaleKw (lp : String) : Bool :=
  strIncludes lp "grayscale" || strIncludes lp "black and white" || strIncludes lp "b&w"

/-- Keyword test: sepia / vintage / old. -/
def hasSepiaKw (lp : String) : Bool :=
  strIncludes lp "sepia" || strIncludes lp "vintage" || strIncludes lp "old"

/-- Keyword test: blur. -/
def hasBlurKw (lp : String) : Bool :=
  strIncludes lp "blur"

/-- Keyword test: vibrant / colorful / saturate. -/
def hasVibrantKw (lp : String) : Bool :=
  strIncludes lp "vibrant" || strIncludes lp "colorful" || strIncludes lp "saturate"

/-- Keyword test: bright / lighten. -/
def hasBrightKw (lp : String) : Bool :=
  strIncludes lp "bright" || strIncludes lp "lighten"

/-- Keyword test: dark / dim. -/
def hasDarkKw (lp : String) : Bool :=
  strIncludes lp "dark" || strIncludes lp "dim"

/-- Keyword test: sharp / detail. -/
def hasSharpKw (lp : String) : Bool :=
  strIncludes lp "sharp" || strIncludes lp "detail"

/-- Keyword test: contrast. -/
def hasContrastKw (lp : String) : Bool :=
  strIncludes lp "contrast"

/-- Keyword test: rotate. -/
def hasRotateKw (lp : String) : Bool :=
  strIncludes lp "rotate"

/-- Keyword test: flip / mirror. -/
def hasFlipKw (lp : String) : Bool :=
  strIncludes lp "flip" || strIncludes lp "mirror"

/-- Keyword test: 16:9 / 16/9 / widescreen. -/
def hasWideKw (lp : String) : Bool :=
  strIncludes lp "16:9" || strIncludes lp "16/9" || strIncludes lp "widescreen"

/-- Keyword test: 4:3 / 4/3. -/
def hasFourThreeKw (lp : String) : Bool :=
  strIncludes lp "4:3" || strIncludes lp "4/3"

/-- Keyword test: square / 1:1. -/
def hasSquareKw (lp : String) : Bool :=
  strIncludes lp "square" || strIncludes lp "1:1"

/-- Keyword test: warm / golden. -/
def hasWarmKw (lp : String) : Bool :=
  strIncludes lp "warm" || strIncludes lp "golden"

/-- Instruction returned for the grayscale group. -/
def grayscaleInstr : EditInstruction :=
  ⟨"filter", [("type", .str "grayscale")], "Converting to grayscale", false, none⟩

/-- Instruction returned for the sepia group. -/
def sepiaInstr : EditInstruction :=
  ⟨"filter", [("type", .str "sepia")], "Applying vintage sepia effect", false, none⟩

/-- Instruction returned for the blur group. -/
def blurInstr : EditInstruction :=
  ⟨"filter", [("type", .str "blur")], "Applying blur effect", false, none⟩

/-- Instruction returned for the vibrant group. -/
def vibrantInstr : EditInstruction :=
  ⟨"enhance", [("saturation", .num 1.5), ("contrast", .num 1.1)],
    "Enhancing colors and vibrancy", false, none⟩

/-- Instruction returned for the bright group. -/
def brightInstr : EditInstruction :=
  ⟨"enhance", [("brightness", .num 1.3)], "Increasing brightness", false, none⟩

/-- Instruction returned for the dark group. -/
def darkInstr : EditInstruction :=
  ⟨"enhance", [("brightness", .num 0.7)], "Reducing brightness", false, none⟩

/-- Instruction returned for the sharpen group. -/
def sharpenInstr : EditInstruction :=
  ⟨"enhance", [("sharpen", .bool true), ("contrast", .num 1.1)],
    "Sharpening image", false, none⟩

/-- Instruction returned for the contrast group. -/
def contrastInstr : EditInstruction :=
  ⟨"enhance", [("contrast", .num 1.3)], "Increasing contrast", false, none⟩

/-- Instruction returned for the rotate group, with the optional degree
capture (default 90). -/
def rotateInstr (lp : String) : EditInstruction :=
  let degrees := (firstNumber lp.toList).getD 90
  ⟨"transform", [("rotate", .num (degrees : ℚ))],
    "Rotating " ++ toString degrees ++ " degrees", false, none⟩

/-- Instruction returned for the flip group, with the optional axis. -/
def flipInstr (lp : String) : EditInstruction :=
  let direction := if strIncludes lp "vertical" then "vertical" else "horizontal"
  ⟨"transform", [("flip", .str direction)], "Flipping " ++ direction ++ "ly", false, none⟩

/-- Instruction returned for the 16:9 group. -/
def wideInstr : EditInstruction :=
  ⟨"crop", [("aspectRatio", .str "16:9")], "Cropping to 16:9 aspect ratio", false, none⟩

/-- Instruction returned for the 4:3 group. -/
def fourThreeInstr : EditInstruction :=
  ⟨"crop", [("aspectRatio", .str "4:3")], "Cropping to 4:3 aspect ratio", false, none⟩

/-- Instruction returned for the square group. -/
def squareInstr : EditInstruction :=
  ⟨"crop", [("aspectRatio", .str "1:1")], "Cropping to square", false, none⟩

/-- Instruction returned for the warm group. -/
def warmInstr : EditInstruction :=
  ⟨"enhance", [("saturation", .num 1.2), ("brightness", .num 1.05)],
    "Adding warm tones", false, none⟩

/-- The default general-enhancement instruction. -/
def defaultEnhanceInstr : EditInstruction :=
  ⟨"enhance", [("contrast", .num 1.1), ("saturation", .num 1.1), ("sharpen", .bool true)],
    "General enhancement applied", false, none⟩

/-- `extractIntentFromResponse(response, userPrompt)`: the rule-based
classifier.  The source also lower-cases `response`, but every test reads
only the lower-cased prompt; the unused binding is kept for fidelity. -/
def extractIntentFromResponse (response userPrompt : String) : EditInstruction :=
  let _lowerResponse := jsToLowerCase response
  let lp := jsToLowerCase userPrompt
  if hasGrayscaleKw lp then grayscaleInstr
  else if hasSepiaKw lp then sepiaInstr
  else if hasBlurKw lp then blurInstr
  else if hasVibrantKw lp then vibrantInstr
  else if hasBrightKw lp then brightInstr
  else if hasDarkKw lp then darkInstr
  else if hasSharpKw lp then sharpenInstr
  else if hasContrastKw lp then contrastInstr
  else if hasRotateKw lp then rotateInstr lp
  else if hasFlipKw lp then flipInstr lp
  else if hasWideKw lp then wideInstr
  else if hasFourThreeKw lp then fourThreeInstr
  else if hasSquareKw lp then squareInstr
  else if hasWarmKw lp then warmInstr
  else defaultEnhanceInstr

/-- The classifier's keyword groups as data, in the source's priority
order: predicate on the lower-cased prompt, and instruction builder. -/
def keywordGroups : List ((String → Bool) × (String → EditInstruction)) :=
  [ (hasGrayscaleKw, fun _ => grayscaleInstr),
    (hasSepiaKw, fun _ => sepiaInstr),
    (hasBlurKw, fun _ => blurInstr),
    (hasVibrantKw, fun _ => vibrantInstr),
    (hasBrightKw, fun _ => brightInstr),
    (hasDarkKw, fun _ => darkInstr),
    (hasSharpKw, fun _ => sharpenInstr),
    (hasContrastKw, fun _ => contrastInstr),
    (hasRotateKw, fun lp => rotateInstr lp),
    (hasFlipKw, fun lp => flipInstr lp),
    (hasWideKw, fun _ => wideInstr),
    (hasFourThreeKw, fun _ => fourThreeInstr),
    (hasSquareKw, fun _ => squareInstr),
    (hasWarmKw, fun _ => warmInstr) ]

/-- First-match-wins evaluation of an ordered group list, defaulting to the
general-enhancement instruction. -/
def firstMatchGroup : List ((String → Bool) × (String → EditInstruction)) → String → EditInstruction
  | [], _ => defaultEnhanceInstr
  | g :: gs, lp => if g.1 lp then g.2 lp else firstMatchGroup gs lp

/-- Whether some keyword group matches the lower-cased prompt. -/
def matchesAnyGroup (lp : String) : Bool :=
  keywordGroups.any (fun g => g.1 lp)

/-- `fallbackProcessing(userPrompt)`: the rule-based result, tagged as a
fallback with the fixed reason string. -/
def fallbackProcessing (userPrompt : String) : EditInstruction :=
  let result := extractIntentFromResponse "" userPrompt
  { result with
      usedFallback := true,
      fallbackReason := some "AI service quota exceeded. Using smart preset processing." }

/-! ### Caller-facing AI operations -/

/-- The prompt template of `processImageWithPrompt`. -/
def editPrompt (userPrompt : String) : String :=
  "Based on this image and the user\x27s request: \"" ++ userPrompt ++ "\"\n  \n" ++
  "  Provide specific image processing instructions in JSON format:\n" ++
  "  \x7b\n" ++
  "    \"action\": \"resize|crop|enhance|filter|transform\",\n" ++
  "    \"parameters\": \x7b\n" ++
  "      // Specific parameters based on action\n" ++
  "    \x7d,\n" ++
  "    \"explanation\": \"Brief explanation of recommended changes\"\n" ++
  "  \x7d\n  \n" ++
  "  Available actions:\n" ++
  "  - resize: \x7b width, height, fit: \"cover|contain|fill\" \x7d\n" ++
  "  - crop: \x7b left, top, width, height \x7d or \x7b aspectRatio: \"16:9|4:3|1:1|etc\" \x7d\n" ++
  "  - enhance: \x7b brightness: 0.5-2.0, contrast: 0.5-2.0, saturation: 0.5-2.0, sharpen: true/false \x7d\n" ++
  "  - filter: \x7b type: \"grayscale|sepia|blur|vintage\" \x7d\n" ++
  "  - transform: \x7b rotate: degrees, flip: \"horizontal|vertical\" \x7d\n  \n" ++
  "  Respond with only the JSON, no markdown formatting."

/-- The prompt of `getEnhancementSuggestions`. -/
def suggestionsPrompt : String :=
  "Analyze this image and provide specific enhancement suggestions in JSON format:\n" ++
  "    \x7b\n" ++
  "      \"brightness\": \"increase/decrease/none\",\n" ++
  "      \"contrast\": \"increase/decrease/none\",\n" ++
  "      \"saturation\": \"increase/decrease/none\",\n" ++
  "      \"sharpness\": \"increase/decrease/none\",\n" ++
  "      \"cropSuggestion\": \"description of suggested crop or \x27none\x27\",\n" ++
  "      \"overallQuality\": \"1-10 rating\",\n" ++
  "      \"suggestions\": [\"list of specific improvement suggestions\"]\n" ++
  "    \x7d\n    \n" ++
  "    Respond with only the JSON, no markdown formatting."

/-- The prompt of `generateAltText`. -/
def altTextPrompt : String :=
  "Generate a concise, accessible alt text description for this image. \n" ++
  "  The description should be:\n" ++
  "  - Brief (under 125 characters if possible)\n" ++
  "  - Descriptive of key visual elements\n" ++
  "  - Useful for screen readers\n  \n" ++
  "  Respond with only the alt text, no additional explanation."

/-- The prompt of `detectObjects`. -/
def detectObjectsPrompt : String :=
  "Detect and list all objects visible in this image. \n" ++
  "    Provide the response in JSON format:\n" ++
  "    \x7b\n" ++
  "      \"objects\": [\n" ++
  "        \x7b \"name\": \"object name\", \"confidence\": \"high/medium/low\", \"location\": \"description of position\" \x7d\n" ++
  "      ],\n" ++
  "      \"scene\": \"description of the overall scene\",\n" ++
  "      \"dominantColors\": [\"color1\", \"color2\", \"color3\"]\n" ++
  "    \x7d\n    \n" ++
  "    Respond with only the JSON, no markdown formatting."

/-- The prompt of `generateCreativeIdeas`. -/
def creativeIdeasPrompt : String :=
  "Based on this image, suggest 5 creative variations or edits that could be made.\n    \n" ++
  "    Provide in JSON format:\n" ++
  "    \x7b\n" ++
  "      \"ideas\": [\n" ++
  "        \x7b\n" ++
  "          \"title\": \"Short title\",\n" ++
  "          \"description\": \"Detailed description of the creative edit\",\n" ++
  "          \"difficulty\": \"easy/medium/hard\"\n" ++
  "        \x7d\n" ++
  "      ]\n" ++
  "    \x7d\n    \n" ++
  "    Respond with only the JSON, no markdown formatting."

/-- `generateAltText(imageBuffer)`: a bare `return await analyzeImage(...)`
with no try/catch — the orchestrator outcome, error included, is passed on
to the caller unchanged. -/
def generateAltText (provider : Provider) (times : Nat → Nat) (s : RegState) : RunResult :=
  analyzeImage provider times altTextPrompt s

/-- Result of `processImageWithPrompt`: either the parsed JSON instruction
returned as-is, or an `EditInstruction` object built by the classifier. -/
inductive PlanResult where
  | parsed (v : JsonVal)
  | instr (i : EditInstruction)
deriving Repr

/-- Whether the parsed value has a truthy `action` property
(the `parsed && parsed.action` test). -/
def hasTruthyAction (v : JsonVal) : Bool :=
  match jsonField v "action" with
  | some x => jsTruthy x
  | none => false

/-- `processImageWithPrompt(imageBuffer, userPrompt)`: orchestrated call,
then JSON extraction, then the raw-response classifier; on a thrown
`ServiceUnavailable`, the rule-based fallback. -/
def processImageWithPrompt (provider : Provider) (times : Nat → Nat)
    (userPrompt : String) (s : RegState) : PlanResult :=
  match (analyzeImage provider times (editPrompt userPrompt) s).outcome with
  | .ok response =>
    match parseJsonResponse response with
    | some parsed =>
      if hasTruthyAction parsed then .parsed parsed
      else .instr (extractIntentFromResponse response userPrompt)
    | none => .instr (extractIntentFromResponse response userPrompt)
  | .error _ => .instr (fallbackProcessing userPrompt)

/-- The default suggestion object returned by `getEnhancementSuggestions`
when the AI call fails, carrying an `error` field. -/
def defaultSuggestions : JsonVal :=
  .obj [ ("brightness", .str "none"),
         ("contrast", .str "increase"),
         ("saturation", .str "none"),
         ("sharpness", .str "increase"),
         ("overallQuality", .num 7),
         ("suggestions", .arr [ .str "Consider sharpening the image",
                                .str "Adjust contrast for better depth" ]),
         ("error", .str "AI analysis unavailable, showing default suggestions") ]

/-- `getEnhancementSuggestions(imageBuffer)`: parsed suggestions, or the raw
text wrapped in an object, or the default suggestions on failure. -/
def getEnhancementSuggestions (provider : Provider) (times : Nat → Nat)
    (s : RegState) : JsonVal :=
  match (analyzeImage provider times suggestionsPrompt s).outcome with
  | .ok response =>
    match parseJsonResponse response with
    | some parsed => parsed
    | none => .obj [("raw", .str response)]
  | .error _ => defaultSuggestions

/-- The default object returned by `detectObjects` when the AI call fails. -/
def defaultObjects : JsonVal :=
  .obj [ ("objects", .arr []),
         ("scene", .str "Unable to analyze image"),
         ("dominantColors", .arr []),
         ("error", .str "AI analysis temporarily unavailable") ]

/-- `detectObjects(imageBuffer)`. -/
def detectObjects (provider : Provider) (times : Nat → Nat) (s : RegState) : JsonVal :=
  match (analyzeImage provider times detectObjectsPrompt s).outcome with
  | .ok response =>
    match parseJsonResponse response with
    | some parsed => parsed
    | none => .obj [("raw", .str response)]
  | .error _ => defaultObjects

/-- The default object returned by `generateCreativeIdeas` on failure. -/
def defaultIdeas : JsonVal :=
  .obj [ ("ideas", .arr
           [ .obj [ ("title", .str "Grayscale Conversion"),
                    ("description", .str "Convert to black and white for a classic look"),
                    ("difficulty", .str "easy") ],
             .obj [ ("title", .str "Vintage Filter"),
                    ("description", .str "Apply sepia tones for a nostalgic feel"),
                    ("difficulty", .str "easy") ],
             .obj [ ("title", .str "Enhance Colors"),
                    ("description", .str "Boost saturation and vibrancy"),
                    ("difficulty", .str "easy") ],
             .obj [ ("title", .str "Sharpen Details"),
                    ("description", .str "Increase sharpness for clearer details"),
                    ("difficulty", .str "easy") ],
             .obj [ ("title", .str "Adjust Contrast"),
                    ("description", .str "Improve depth with contrast adjustment"),
                    ("difficulty", .str "medium") ] ]),
         ("fallback", .bool true),
         ("error", .str "AI suggestions temporarily unavailable, showing default ideas") ]

/-- `generateCreativeIdeas(imageBuffer)`. -/
def generateCreativeIdeas (provider : Provider) (times : Nat → Nat) (s : RegState) : JsonVal :=
  match (analyzeImage provider times creativeIdeasPrompt s).outcome with
  | .ok response =>
    match parseJsonResponse response with
    | some parsed => parsed
    | none => .obj [("raw", .str response)]
  | .error _ => defaultIdeas

/-! ### Concrete fixtures used by closed scenario theorems and witnesses -/

/-- Fresh selection state: index 0, last reset at time 0. -/
def reg0 : RegState := ⟨0, 0⟩

/-- A clock that never advances past process start (well inside the
auto-reset interval). -/
def timesZero : Nat → Nat := fun _ => 0

/-- Provider that fails with `429 Too Many Requests` on every model except
the last candidate, where it succeeds. -/
def providerQuota6 : Provider := fun _ _ mdl =>
  if mdl == "gemini-exp-1206" then .ok "great" else .error "429 Too Many Requests"

/-- Provider that always fails with a quota error message. -/
def providerAllQuotaFail : Provider := fun _ _ _ => .error "quota exceeded"

/-- Provider that always succeeds. -/
def providerAlwaysOk : Provider := fun _ _ _ => .ok "hi"

/-! ### Helper lemmas -/
/-- `charListHasPre` holds of a list against itself extended on the right. -/
theorem charListHasPre_append (n rest : List Char) :
    charListHasPre n (n ++ rest) = true := by
  induction n with
  | nil => rfl
  | cons a as ih => simp [charListHasPre, ih]

/-- `charListHasSub` holds when the needle is a prefix of the haystack. -/
theorem charListHasSub_append_right (n rest : List Char) :
    charListHasSub n (n ++ rest) = true := by
  cases n with
  | nil => cases rest <;> simp [charListHasSub, charListHasPre]
  | cons a as =>
    simp only [List.cons_append, charListHasSub, Bool.or_eq_true]
    exact Or.inl (charListHasPre_append (a :: as) rest)

/-- `charListHasSub` is preserved by extending the haystack on the left. -/
theorem charListHasSub_append_left (n pre hay : List Char)
    (h : charListHasSub n hay = true) :
    charListHasSub n (pre ++ hay) = true := by
  induction pre with
  | nil => simpa using h
  | cons c cs ih => simp [charListHasSub, ih]

/-- Substring containment for a string built as `pre ++ mid ++ post`. -/
theorem strIncludes_append (pre mid post : String) :
    strIncludes (pre ++ mid ++ post) mid = true := by
  have h : (pre ++ mid ++ post).toList = pre.toList ++ (mid.toList ++ post.toList) := by
    simp [String.toList, String.data_append, List.append_assoc]
  simp only [strIncludes, h]
  exact charListHasSub_append_left _ _ _ (charListHasSub_append_right _ _)


/-- Behavioural specification of the retry loop `analyzeGo`: the transcript
length is bounded by the fuel; with fuel left at least one call is made; a
success is the last call of the transcript with all earlier calls failed;
a terminal error means every call failed and the error wraps the message of
the last call (or the inherited `lastErr` when no call was made). -/
theorem analyzeGo_spec (P : Provider) (T : Nat → Nat) (pr : String) :
    ∀ fuel attempt s lastErr,
      (analyzeGo P T pr fuel attempt s lastErr).transcript.length ≤ fuel ∧
      (fuel ≠ 0 → (analyzeGo P T pr fuel attempt s lastErr).transcript ≠ []) ∧
      (∀ t, (analyzeGo P T pr fuel attempt s lastErr).outcome = .ok t →
        ∃ preT mdl,
          (analyzeGo P T pr fuel attempt s lastErr).transcript = preT ++ [(mdl, Except.ok t)] ∧
          ∀ x ∈ preT, ∃ m, x.2 = Except.error m) ∧
      (∀ e, (analyzeGo P T pr fuel attempt s lastErr).outcome = .error e →
        (∀ x ∈ (analyzeGo P T pr fuel attempt s lastErr).transcript, ∃ m, x.2 = Except.error m) ∧
        (((analyzeGo P T pr fuel attempt s lastErr).transcript = [] ∧ e = unavailableMsg lastErr) ∨
          ∃ preT mdl m,
            (analyzeGo P T pr fuel attempt s lastErr).transcript = preT ++ [(mdl, Except.error m)] ∧
            e = unavailableMsg (some m))) := by
  intro fuel
  induction fuel with
  | zero =>
    intro attempt s lastErr
    refine ⟨by simp [analyzeGo], by simp, ?_, ?_⟩
    · intro t ht
      simp [analyzeGo] at ht
    · intro e he
      simp only [analyzeGo, Except.error.injEq] at he
      exact ⟨by simp [analyzeGo], Or.inl ⟨rfl, he.symm⟩⟩
  | succ fuel ih =>
    intro attempt s lastErr
    cases hp : P pr attempt (getGeminiVisionModel (T attempt) s).1 with
    | ok t =>
      have hred : analyzeGo P T pr (fuel + 1) attempt s lastErr =
          ⟨.ok t, (getGeminiVisionModel (T attempt) s).2,
            [((getGeminiVisionModel (T attempt) s).1, .ok t)], 0, []⟩ := by
        simp [analyzeGo, hp]
      refine ⟨by rw [hred]; simp, by rw [hred]; simp, ?_, ?_⟩
      · intro t' ht
        rw [hred] at ht ⊢
        simp only [Except.ok.injEq] at ht
        subst ht
        exact ⟨[], (getGeminiVisionModel (T attempt) s).1, rfl, by simp⟩
      · intro e he
        rw [hred] at he
        simp at he
    | error msg =>
      have hred : analyzeGo P T pr (fuel + 1) attempt s lastErr =
          ⟨(analyzeGo P T pr fuel (attempt + 1)
              (handleError msg attempt (getGeminiVisionModel (T attempt) s).2).state
              (some msg)).outcome,
            (analyzeGo P T pr fuel (attempt + 1)
              (handleError msg attempt (getGeminiVisionModel (T attempt) s).2).state
              (some msg)).finalState,
            ((getGeminiVisionModel (T attempt) s).1, .error msg) ::
              (analyzeGo P T pr fuel (attempt + 1)
                (handleError msg attempt (getGeminiVisionModel (T attempt) s).2).state
                (some msg)).transcript,
            (handleError msg attempt (getGeminiVisionModel (T attempt) s).2).advs +
              (analyzeGo P T pr fuel (attempt + 1)
                (handleError msg attempt (getGeminiVisionModel (T attempt) s).2).state
                (some msg)).advs,
            (handleError msg attempt (getGeminiVisionModel (T attempt) s).2).sleeps ++
              (analyzeGo P T pr fuel (attempt + 1)
                (handleError msg attempt (getGeminiVisionModel (T attempt) s).2).state
                (some msg)).sleeps⟩ := by
        simp [analyzeGo, hp]
      obtain ⟨ih1, _ih2, ih3, ih4⟩ :=
        ih (attempt + 1)
          (handleError msg attempt (getGeminiVisionModel (T attempt) s).2).state (some msg)
      refine ⟨by rw [hred]; simpa using ih1, by rw [hred]; simp, ?_, ?_⟩
      · intro t ht
        rw [hred] at ht ⊢
        obtain ⟨preT, mdl, heq, herr⟩ := ih3 t ht
        refine ⟨((getGeminiVisionModel (T attempt) s).1, .error msg) :: preT, mdl, by
          simp [heq], ?_⟩
        intro x hx
        rcases List.mem_cons.mp hx with hx | hx
        · exact ⟨msg, by rw [hx]⟩
        · exact herr x hx
      · intro e he
        rw [hred] at he ⊢
        obtain ⟨hall, hdisj⟩ := ih4 e he
        constructor
        · intro x hx
          rcases List.mem_cons.mp hx with hx | hx
          · exact ⟨msg, by rw [hx]⟩
          · exact hall x hx
        · rcases hdisj with ⟨hnil, hmsg⟩ | ⟨preT, mdl, m, heq, hmsg⟩
          · exact Or.inr ⟨[], (getGeminiVisionModel (T attempt) s).1, msg, by simp [hnil], hmsg⟩
          · exact Or.inr ⟨((getGeminiVisionModel (T attempt) s).1, .error msg) :: preT, mdl, m,
              by simp [heq], hmsg⟩

/-- C1: for every payload and prompt, `analyzeImage` issues at most
`MAX_RETRIES = 7` underlying provider calls (the transcript records exactly
one entry per underlying call); if some attempt succeeds the returned value
is that provider response's text, produced by the last call made (all
earlier calls failed, so the success returned immediately); if every
attempt fails it throws exactly one terminal error — the `.error` outcome —
whose message contains the message of the last underlying provider error;
it never returns a degraded or fallback result: every `.ok` outcome is
literally a provider response. -/
theorem orchestrator_attempt_bound_and_terminal (P : Provider) (T : Nat → Nat)
    (pr : String) (s : RegState) :
    MAX_RETRIES = 7 ∧
    (analyzeImage P T pr s).transcript.length ≤ MAX_RETRIES ∧
    (∀ t, (analyzeImage P T pr s).outcome = .ok t →
      ∃ preT mdl, (analyzeImage P T pr s).transcript = preT ++ [(mdl, Except.ok t)] ∧
        ∀ x ∈ preT, ∃ m, x.2 = Except.error m) ∧
    (∀ e, (analyzeImage P T pr s).outcome = .error e →
      (∀ x ∈ (analyzeImage P T pr s).transcript, ∃ m, x.2 = Except.error m) ∧
      ∃ preT mdl m, (analyzeImage P T pr s).transcript = preT ++ [(mdl, Except.error m)] ∧
        e = unavailableMsg (some m) ∧ strIncludes e m = true) := by
  obtain ⟨h1, h2, h3, h4⟩ := analyzeGo_spec P T pr MAX_RETRIES 0 s none
  refine ⟨rfl, h1, h3, ?_⟩
  intro e he
  obtain ⟨hall, hdisj⟩ := h4 e he
  refine ⟨hall, ?_⟩
  rcases hdisj with ⟨hnil, _⟩ | ⟨preT, mdl, m, heq, hmsg⟩
  · exact absurd hnil (h2 (by simp [MAX_RETRIES]))
  · refine ⟨preT, mdl, m, heq, hmsg, ?_⟩
    rw [hmsg]
    exact strIncludes_append "AI service temporarily unavailable: " m ". Please try again later."

/-- Witness for C1: a provider that succeeds at once gives a one-entry
transcript whose only call is the returned success, and an always-failing
provider exercises the terminal branch. -/
theorem orchestrator_attempt_bound_and_terminal_witness :
    ((analyzeImage providerAlwaysOk timesZero "describe" reg0).transcript.length ≤ MAX_RETRIES ∧
      ∃ preT mdl,
        (analyzeImage providerAlwaysOk timesZero "describe" reg0).transcript =
          preT ++ [(mdl, Except.ok "hi")] ∧
        ∀ x ∈ preT, ∃ m, x.2 = Except.error m) ∧
    ∃ preT mdl m,
      (analyzeImage providerAllQuotaFail timesZero "describe" reg0).transcript =
        preT ++ [(mdl, Except.error m)] ∧
      unavailableMsg (some "quota exceeded") = unavailableMsg (some m) ∧
      strIncludes (unavailableMsg (some "quota exceeded")) m = true :=
  ⟨⟨(orchestrator_attempt_bound_and_terminal providerAlwaysOk timesZero "describe" reg0).2.1,
    (orchestrator_attempt_bound_and_terminal providerAlwaysOk timesZero "describe" reg0).2.2.1
      "hi" rfl⟩,
    ((orchestrator_attempt_bound_and_terminal providerAllQuotaFail timesZero "describe" reg0).2.2.2
      (unavailableMsg (some "quota exceeded")) rfl).2⟩

/-- C2: in every retry iteration the caught error is classified by its
message, in the order of the source's checks.  Quota signature (`429`,
`quota`, `Too Many Requests`): `switchToNextModel` is called; if it
returned true the step ends with the single fixed sleep `RETRY_DELAY_MS`
(no backoff growth) and the advanced state, continuing to the next attempt;
if it returned false the state is left unchanged and the step falls through
to the shared tail handling of the attempt (`switchToNextModel` having been
called at least once), which leads to the terminal error once attempts run
out.  Not-found signature (`404`, `not found`) without a quota signature:
if `switchToNextModel` returned true the step continues immediately with no
sleep.  Any other error: no `switchToNextModel` call, and the single linear
backoff sleep `RETRY_DELAY_MS * (attempt + 1)` provided attempts remain. -/
theorem catch_block_classification (msg : String) (attempt : Nat) (s : RegState) :
    (isQuotaError msg = true → (switchToNextModel s).2 = true →
      handleError msg attempt s = ⟨(switchToNextModel s).1, [RETRY_DELAY_MS], 1⟩) ∧
    (isQuotaError msg = true → (switchToNextModel s).2 = false →
      (handleError msg attempt s).state = s ∧
      1 ≤ (handleError msg attempt s).advs ∧
      (handleError msg attempt s).sleeps =
        (if attempt < MAX_RETRIES - 1 then [RETRY_DELAY_MS * (attempt + 1)] else [])) ∧
    (isQuotaError msg = false → isNotFoundError msg = true → (switchToNextModel s).2 = true →
      handleError msg attempt s = ⟨(switchToNextModel s).1, [], 1⟩) ∧
    (isQuotaError msg = false → isNotFoundError msg = false →
      handleError msg attempt s =
        ⟨s, (if attempt < MAX_RETRIES - 1 then [RETRY_DELAY_MS * (attempt + 1)] else []), 0⟩) := by
  by_cases hlt : s.currentModelIndex < GEMINI_MODELS.length - 1
  · have hsw : switchToNextModel s = (⟨s.currentModelIndex + 1, s.lastResetTime⟩, true) := by
      simp [switchToNextModel, hlt]
    refine ⟨?_, ?_, ?_, ?_⟩
    · intro hq _
      simp [handleError, hq, hsw]
    · intro _ habs
      rw [hsw] at habs
      simp at habs
    · intro hq hn _
      simp [handleError, hq, afterQuota, hn, hsw]
    · intro hq hn
      simp [handleError, hq, afterQuota, hn, genericTail]
  · have hsw : switchToNextModel s = (s, false) := by
      simp [switchToNextModel, hlt]
    refine ⟨?_, ?_, ?_, ?_⟩
    · intro _ habs
      rw [hsw] at habs
      simp at habs
    · intro hq _
      by_cases hn : isNotFoundError msg = true
      · simp [handleError, hq, hsw, afterQuota, hn, genericTail]
      · simp [handleError, hq, hsw, afterQuota, hn, genericTail]
    · intro _ _ habs
      rw [hsw] at habs
      simp at habs
    · intro hq hn
      simp [handleError, hq, afterQuota, hn, genericTail]

/-- Witness for C2: a pure `429` message at a fresh registry takes the
quota branch (advance succeeded, fixed sleep), and a signature-free message
takes the linear-backoff branch. -/
theorem catch_block_classification_witness :
    handleError "429" 0 reg0 = ⟨(switchToNextModel reg0).1, [RETRY_DELAY_MS], 1⟩ ∧
    handleError "socket hang up" 2 reg0 =
      ⟨reg0, (if 2 < MAX_RETRIES - 1 then [RETRY_DELAY_MS * (2 + 1)] else []), 0⟩ :=
  ⟨(catch_block_classification "429" 0 reg0).1 (by decide) (by decide),
    (catch_block_classification "socket hang up" 2 reg0).2.2.2 (by decide) (by decide)⟩

/-- Any single registry operation keeps the selection index in range. -/
theorem applyRegOp_index_lt (op : RegOp) (s : RegState)
    (h : s.currentModelIndex < GEMINI_MODELS.length) :
    (applyRegOp op s).currentModelIndex < GEMINI_MODELS.length := by
  have hlen : GEMINI_MODELS.length = 7 := rfl
  cases op with
  | getModel now name =>
    simp only [applyRegOp, getGeminiModel]
    split
    · simp [hlen]
    · exact h
  | switchNext =>
    simp only [applyRegOp, switchToNextModel]
    split
    · show s.currentModelIndex + 1 < GEMINI_MODELS.length
      omega
    · exact h
  | reset now =>
    simp [applyRegOp, resetModelSelection, hlen]

/-- The in-range invariant holds along any operation sequence. -/
theorem runRegOps_index_lt (ops : List RegOp) :
    ∀ s, s.currentModelIndex < GEMINI_MODELS.length →
      (runRegOps ops s).currentModelIndex < GEMINI_MODELS.length := by
  induction ops with
  | nil => intro s h; exact h
  | cons op ops ih =>
    intro s h
    exact ih _ (applyRegOp_index_lt op s h)

/-- C3: starting from the initial state (index 0), every finite sequence of
registry operations keeps `currentModelIndex` inside `[0, length-1]` (the
index is a natural number, so it is never negative: every write in the
source is `0` or an increment); `switchToNextModel` increments the index
and returns true exactly when the index is not at the last position, and
otherwise leaves the state unchanged and returns false; and no operation
ever decreases the index except by setting it to 0 (`resetModelSelection`
and the auto-reset inside `getGeminiModel`). -/
theorem registry_selection_invariant :
    (∀ ops t0, (runRegOps ops ⟨0, t0⟩).currentModelIndex < GEMINI_MODELS.length) ∧
    (∀ s, s.currentModelIndex < GEMINI_MODELS.length →
      ((switchToNextModel s).2 = true ↔ s.currentModelIndex ≠ GEMINI_MODELS.length - 1)) ∧
    (∀ s, s.currentModelIndex < GEMINI_MODELS.length - 1 →
      switchToNextModel s = (⟨s.currentModelIndex + 1, s.lastResetTime⟩, true)) ∧
    (∀ s, ¬ s.currentModelIndex < GEMINI_MODELS.length - 1 →
      switchToNextModel s = (s, false)) ∧
    (∀ op s, s.currentModelIndex ≤ (applyRegOp op s).currentModelIndex ∨
      (applyRegOp op s).currentModelIndex = 0) := by
  have hlen : GEMINI_MODELS.length = 7 := rfl
  refine ⟨?_, ?_, ?_, ?_, ?_⟩
  · intro ops t0
    exact runRegOps_index_lt ops ⟨0, t0⟩ (by simp [hlen])
  · intro s h
    constructor
    · intro hsw
      by_cases hlt : s.currentModelIndex < GEMINI_MODELS.length - 1
      · omega
      · simp [switchToNextModel, hlt] at hsw
    · intro hne
      have hlt : s.currentModelIndex < GEMINI_MODELS.length - 1 := by omega
      simp [switchToNextModel, hlt]
  · intro s hlt
    simp [switchToNextModel, hlt]
  · intro s hlt
    simp [switchToNextModel, hlt]
  · intro op s
    cases op with
    | getModel now name =>
      simp only [applyRegOp, getGeminiModel]
      split
      · exact Or.inr rfl
      · exact Or.inl le_rfl
    | switchNext =>
      simp only [applyRegOp, switchToNextModel]
      split
      · exact Or.inl (Nat.le_succ _)
      · exact Or.inl le_rfl
    | reset now =>
      exact Or.inr rfl

/-- Witness for C3: a concrete operation sequence stays in range, and the
advance behaviour is exercised at a fresh state and at the last index. -/
theorem registry_selection_invariant_witness :
    (runRegOps [RegOp.switchNext, RegOp.getModel 100 none, RegOp.reset 200] ⟨0, 0⟩).currentModelIndex <
      GEMINI_MODELS.length ∧
    switchToNextModel reg0 = (⟨0 + 1, 0⟩, true) ∧
    switchToNextModel ⟨6, 0⟩ = (⟨6, 0⟩, false) :=
  ⟨registry_selection_invariant.1 [RegOp.switchNext, RegOp.getModel 100 none, RegOp.reset 200] 0,
    registry_selection_invariant.2.2.1 reg0 (by decide),
    registry_selection_invariant.2.2.2.1 ⟨6, 0⟩ (by decide)⟩

/-- C4: a `getGeminiModel` call with no explicit model-name override: if
more than the 60-second inactivity interval has elapsed since
`lastResetTime`, the call sets the index to 0 and the reset time to the
call time and returns the first candidate; otherwise the state is
unchanged and the candidate at the current index is returned. -/
theorem getGeminiModel_auto_reset (now : Nat) (s : RegState)
    (h : s.currentModelIndex < GEMINI_MODELS.length) :
    (now - s.lastResetTime > RESET_INTERVAL →
      getGeminiModel now none s = (GEMINI_MODELS.getD 0 "", ⟨0, now⟩)) ∧
    (¬ now - s.lastResetTime > RESET_INTERVAL →
      getGeminiModel now none s = (GEMINI_MODELS.getD s.currentModelIndex "", s)) := by
  constructor
  · intro hgt
    simp [getGeminiModel, hgt]
    rfl
  · intro hle
    simp [getGeminiModel, hle]
    rw [List.getElem?_eq_getElem h]
    rfl

/-- Witness for C4: 70000 ms after the last reset the call returns the
primary model and resets the state; 1000 ms after it, state and selection
are untouched. -/
theorem getGeminiModel_auto_reset_witness :
    getGeminiModel 70000 none ⟨2, 0⟩ = (GEMINI_MODELS.getD 0 "", ⟨0, 70000⟩) ∧
    getGeminiModel 1000 none ⟨2, 0⟩ = (GEMINI_MODELS.getD 2 "", ⟨2, 0⟩) :=
  ⟨(getGeminiModel_auto_reset 70000 ⟨2, 0⟩ (by decide)).1 (by decide),
    (getGeminiModel_auto_reset 1000 ⟨2, 0⟩ (by decide)).2 (by decide)⟩

/-- C5: from the fresh selection state with the 7-candidate list, a
provider that fails with `429 Too Many Requests` on the first 6 candidate
models and succeeds on the 7th makes the orchestrated call return the
successful response after exactly 7 underlying calls and exactly 6
`switchToNextModel` calls, leaving the registry at the last model
(index 6). -/
theorem end_to_end_quota_fallback_scenario :
    (analyzeImage providerQuota6 timesZero "analyze" reg0).outcome = Except.ok "great" ∧
    (analyzeImage providerQuota6 timesZero "analyze" reg0).transcript.length = 7 ∧
    (analyzeImage providerQuota6 timesZero "analyze" reg0).advs = 6 ∧
    (analyzeImage providerQuota6 timesZero "analyze" reg0).finalState.currentModelIndex = 6 ∧
    (analyzeImage providerQuota6 timesZero "analyze" reg0).transcript.map Prod.fst =
      GEMINI_MODELS :=
  ⟨rfl, rfl, rfl, rfl, rfl⟩

/-- Counterexample to C6 as stated: `generateAltText` is an AI-dependent
caller-facing operation (exported by the AI service module and imported by
the route layer), yet it wraps `analyzeImage` in no try/catch — at this
concrete input the terminal `ServiceUnavailable` error escapes to its
caller as a raw exception instead of any degraded result. -/
theorem generateAltText_propagates_raw_error :
    (generateAltText providerAllQuotaFail timesZero reg0).outcome =
      Except.error (unavailableMsg (some "quota exceeded")) := rfl

/-- C6 (amended): when the orchestrated call terminates with the terminal
`ServiceUnavailable` failure, every AI-dependent caller-facing operation
except `generateAltText` returns a clearly-flagged degraded result instead
of propagating the raw exception: `processImageWithPrompt` returns the
rule-based instruction tagged `usedFallback: true` with the fixed
`fallbackReason` string, `getEnhancementSuggestions` returns the default
suggestion object carrying an `error` field, and `detectObjects` and
`generateCreativeIdeas` return default objects carrying `error` fields;
`generateAltText` propagates the raw exception. -/
theorem degraded_result_propagation (P : Provider) (T : Nat → Nat)
    (u : String) (s : RegState)
    (h : ∀ pr, ∃ e, (analyzeImage P T pr s).outcome = Except.error e) :
    processImageWithPrompt P T u s = .instr (fallbackProcessing u) ∧
    (fallbackProcessing u).usedFallback = true ∧
    (fallbackProcessing u).fallbackReason =
      some "AI service quota exceeded. Using smart preset processing." ∧
    getEnhancementSuggestions P T s = defaultSuggestions ∧
    jsonField defaultSuggestions "error" =
      some (.str "AI analysis unavailable, showing default suggestions") ∧
    detectObjects P T s = defaultObjects ∧
    jsonField defaultObjects "error" = some (.str "AI analysis temporarily unavailable") ∧
    generateCreativeIdeas P T s = defaultIdeas ∧
    jsonField defaultIdeas "error" =
      some (.str "AI suggestions temporarily unavailable, showing default ideas") ∧
    (∀ e, (analyzeImage P T altTextPrompt s).outcome = Except.error e →
      (generateAltText P T s).outcome = Except.error e) := by
  obtain ⟨e1, he1⟩ := h (editPrompt u)
  obtain ⟨e2, he2⟩ := h suggestionsPrompt
  obtain ⟨e3, he3⟩ := h detectObjectsPrompt
  obtain ⟨e4, he4⟩ := h creativeIdeasPrompt
  refine ⟨?_, rfl, rfl, ?_, rfl, ?_, rfl, ?_, rfl, ?_⟩
  · simp only [processImageWithPrompt]
    rw [he1]
  · simp only [getEnhancementSuggestions]
    rw [he2]
  · simp only [detectObjects]
    rw [he3]
  · simp only [generateCreativeIdeas]
    rw [he4]
  · intro e he
    simpa only [generateAltText] using he

/-- Witness for C6 (amended): at the always-failing provider the degraded
results are produced. -/
theorem degraded_result_propagation_witness :
    processImageWithPrompt providerAllQuotaFail timesZero "make it pop" reg0 =
      .instr (fallbackProcessing "make it pop") ∧
    getEnhancementSuggestions providerAllQuotaFail timesZero reg0 = defaultSuggestions :=
  ⟨(degraded_result_propagation providerAllQuotaFail timesZero "make it pop" reg0
      (fun _ => ⟨unavailableMsg (some "quota exceeded"), rfl⟩)).1,
    (degraded_result_propagation providerAllQuotaFail timesZero "make it pop" reg0
      (fun _ => ⟨unavailableMsg (some "quota exceeded"), rfl⟩)).2.2.2.1⟩

/-- The nested-conditional classifier equals first-match-wins evaluation of
the ordered group list. -/
theorem extractIntent_eq_firstMatch (response userPrompt : String) :
    extractIntentFromResponse response userPrompt =
      firstMatchGroup keywordGroups (jsToLowerCase userPrompt) := rfl

/-- When no group matches, first-match-wins evaluation yields the default
general-enhancement instruction. -/
theorem firstMatchGroup_no_match :
    ∀ (gs : List ((String → Bool) × (String → EditInstruction))) (lp : String),
      gs.any (fun g => g.1 lp) = false → firstMatchGroup gs lp = defaultEnhanceInstr := by
  intro gs
  induction gs with
  | nil => intro lp _; rfl
  | cons g gs ih =>
    intro lp h
    simp only [List.any_cons, Bool.or_eq_false_iff] at h
    simp [firstMatchGroup, h.1, ih lp h.2]

/-- C7: the classifier lower-cases the prompt and tests the keyword groups
in the fixed source order (grayscale, sepia, blur, vibrant, bright, dark,
sharpen, contrast, rotate, flip, 16:9, 4:3, square, warm); the first group
whose keywords occur in the prompt determines the returned instruction —
for a prompt matching several groups the result is that of the earliest
matching group, independently of the `response` argument. -/
theorem fallback_classifier_priority (response userPrompt : String) :
    extractIntentFromResponse response userPrompt =
      firstMatchGroup keywordGroups (jsToLowerCase userPrompt) ∧
    (∀ response', extractIntentFromResponse response userPrompt =
      extractIntentFromResponse response' userPrompt) :=
  ⟨extractIntent_eq_firstMatch response userPrompt, fun _ => rfl⟩

/-- C8: the classifier is a pure total function (its embedding is a Lean
function, hence deterministic and never throwing); the two fixed prompts
classify as stated, and an empty or otherwise unmatched prompt yields the
default general-enhancement instruction. -/
theorem fallback_classifier_determinism :
    extractIntentFromResponse "" "convert to black and white" =
      ⟨"filter", [("type", .str "grayscale")], "Converting to grayscale", false, none⟩ ∧
    extractIntentFromResponse "" "rotate this 90 degrees" =
      ⟨"transform", [("rotate", .num 90)], "Rotating 90 degrees", false, none⟩ ∧
    extractIntentFromResponse "" "" = defaultEnhanceInstr ∧
    defaultEnhanceInstr =
      ⟨"enhance", [("contrast", .num 1.1), ("saturation", .num 1.1), ("sharpen", .bool true)],
        "General enhancement applied", false, none⟩ ∧
    (∀ p, matchesAnyGroup (jsToLowerCase p) = false →
      extractIntentFromResponse "" p = defaultEnhanceInstr) := by
  refine ⟨by decide, by decide, rfl, rfl, ?_⟩
  intro p h
  rw [extractIntent_eq_firstMatch]
  exact firstMatchGroup_no_match keywordGroups (jsToLowerCase p) h

/-- Witness for C8: the prompt `hello` matches no keyword group and falls
to the default instruction. -/
theorem fallback_classifier_determinism_witness :
    extractIntentFromResponse "" "hello" = defaultEnhanceInstr :=
  fallback_classifier_determinism.2.2.2.2 "hello" (by decide)

/-- C9: `parseJsonResponse` strips code-fence markers, trims, greedily
matches the span from the first left brace to the last right brace of the
remaining text, and returns the parsed JSON value exactly when that span
parses; it returns nothing — never an exception, the embedding is a total
function into `Option` — when no such span exists or parsing fails.  In
particular the fenced input yields the object with field `a = 1`, and
`no json here` yields nothing. -/
theorem response_interpreter_extraction :
    parseJsonResponse "```json\n\x7b\"a\":1\x7d\n```" =
      some (JsonVal.obj [("a", JsonVal.num 1)]) ∧
    parseJsonResponse "no json here" = none ∧
    (∀ s, extractBraceSpan (cleanResponse s) = none → parseJsonResponse s = none) ∧
    (∀ s v, parseJsonResponse s = some v →
      ∃ span, extractBraceSpan (cleanResponse s) = some span ∧ jsonParse span = some v) := by
  refine ⟨rfl, rfl, ?_, ?_⟩
  · intro s h
    simp [parseJsonResponse, h]
  · intro s v h
    cases he : extractBraceSpan (cleanResponse s) with
    | none => simp [parseJsonResponse, he] at h
    | some span =>
      refine ⟨span, rfl, ?_⟩
      simpa [parseJsonResponse, he] using h

/-- Witness for C9: a span-free input returns nothing. -/
theorem response_interpreter_extraction_witness :
    parseJsonResponse "nothing structured at all" = none :=
  response_interpreter_extraction.2.2.1 "nothing structured at all" rfl
